import Mathlib

/-!
Verification development for the facial-recognition attendance system
(`app.py`, `trainer.py`, `eval_on_train.py`).

The Python source is shallowly embedded: OpenCV raster operations
(grayscale conversion, Haar-cascade face detection, cropping, resizing,
histogram equalization) are abstracted as an environment `CvEnv` of opaque
functions on an abstract image type `Img`; filesystem and library
availability (model files, `cv2.face`, pickle loads) are an explicit state
`FsState`/`TrainEnv`; floating-point confidences are modelled as rationals.
Control flow, thresholds, filename bookkeeping and message strings follow
the source line by line.
-/

namespace FaceAttendance

/-- `CONFIDENCE_THRESHOLD = 100` from app.py (LBPH distance gate). -/
def CONFIDENCE_THRESHOLD : ℚ := 100

/-- `SKLEARN_PROBA_THRESHOLD = 0.80` from app.py (KNN probability gate). -/
def SKLEARN_PROBA_THRESHOLD : ℚ := 4 / 5

/-- Axis-aligned face rectangle as returned by `detectMultiScale`. -/
structure Rect where
  x : ℤ
  y : ℤ
  w : ℤ
  h : ℤ
deriving DecidableEq

/-- Environment of OpenCV/PIL raster primitives over an abstract image type.
Pixel-level behaviour is opaque; only the call structure of the Python code
is modelled. `shape` returns `(height, width)`; `slice g y1 y2 x1 x2`
models the numpy slice `g[y1:y2, x1:x2]`. -/
structure CvEnv (Img : Type) where
  shape : Img → ℤ × ℤ
  detectMultiScale : Img → List Rect
  slice : Img → ℤ → ℤ → ℤ → ℤ → Img
  equalizeHist : Img → Img
  resize : Img → ℕ × ℕ → Img
  toGray : Img → Img
  flatten : Img → Img

/-- `preprocess_img_np` (app.py): equalize then resize; `None` passes through. -/
def preprocess_img_np {Img : Type} (env : CvEnv Img) (img_gray : Option Img)
    (size : ℕ × ℕ) : Option Img :=
  match img_gray with
  | none => none
  | some g => some (env.resize (env.equalizeHist g) size)

/-- `preprocess_face_np` (app.py): detect faces; if none, return `None`;
otherwise take the largest rectangle (stable sort by area, descending),
pad by 15% clamped to the image bounds, crop, then equalize+resize to
200x200 via `preprocess_img_np`. The Python `int(fw * 0.15)` is modelled
as integer division `fw * 15 / 100` (equal for the nonnegative widths and
heights the detector produces). -/
def preprocess_face_np {Img : Type} (env : CvEnv Img) (gray_arr : Option Img) : Option Img :=
  match gray_arr with
  | none => none
  | some g =>
      let hw := env.shape g
      let faces := env.detectMultiScale g
      if faces.isEmpty then none
      else
        match faces.mergeSort (fun a b => decide (b.w * b.h ≤ a.w * a.h)) with
        | [] => none
        | r :: _ =>
            let pad_w := r.w * 15 / 100
            let pad_h := r.h * 15 / 100
            let x1 := max 0 (r.x - pad_w)
            let y1 := max 0 (r.y - pad_h)
            let x2 := min hw.2 (r.x + r.w + pad_w)
            let y2 := min hw.1 (r.y + r.h + pad_h)
            preprocess_img_np env (some (env.slice g y1 y2 x1 x2)) (200, 200)

/-- `_sanitize_for_filename` (app.py): strip, spaces to underscores, keep
only `[A-Za-z0-9_]`. -/
def _sanitize_for_filename (s : String) : String :=
  if s = "" then ""
  else ⟨((s.trim.replace " " "_").data.filter (fun c => c.isAlphanum || c = '_'))⟩

/-- The `name`/`uid` columns of a `users` row, as read by
`save_training_image_for_face` via `get_user_by_face_id`. -/
structure UserRow where
  name : Option String
  uid : Option String

/-- The `name_uid` fragment computed inside `save_training_image_for_face`. -/
def name_uid_of (user : Option UserRow) : String :=
  match user with
  | none => ""
  | some u =>
      let name_part := _sanitize_for_filename (u.name.getD "")
      let uid_part := _sanitize_for_filename (u.uid.getD "")
      if name_part ≠ "" && uid_part ≠ "" then name_part ++ "_" ++ uid_part
      else if name_part ≠ "" then name_part
      else if uid_part ≠ "" then uid_part
      else ""

/-- A stored training image filename
`training_images/User.<subject>[.<frag>].<seq>.jpg`, in structured form.
The prefix test `fn.startswith(f"User.{face_id}.")` used by the source is
exactly the test `subject = face_id` on this representation (the trailing
dot in the prefix prevents `User.11.` matching `User.1.`). -/
structure TrainFile where
  subject : ℤ
  frag : Option String
  seq : ℕ
deriving DecidableEq

/-- `save_training_image_for_face` (app.py): grayscale the image, detect
faces; with no detection fall back to resizing the whole image (write-path
tolerance), otherwise crop the largest rectangle (no padding) and resize;
equalize; then write `User.<face_id>[.<name_uid>].<n>.jpg` where
`n = (number of existing files whose name starts with "User.<face_id>.") + 1`.
Returns the processed raster, the created filename and the updated
directory listing: `cv2.imwrite` silently overwrites, so a name already
listed gains no second directory entry. -/
def save_training_image_for_face {Img : Type} (env : CvEnv Img) (face_id : ℤ)
    (user : Option UserRow) (pil_image : Img) (store : List TrainFile) :
    Img × TrainFile × List TrainFile :=
  let arr := env.toGray pil_image
  let faces := env.detectMultiScale arr
  let face_img :=
    if faces.isEmpty then env.resize arr (200, 200)
    else
      match faces.mergeSort (fun a b => decide (b.w * b.h ≤ a.w * a.h)) with
      | [] => env.resize arr (200, 200)
      | r :: _ => env.resize (env.slice arr r.y (r.y + r.h) r.x (r.x + r.w)) (200, 200)
  let face_img := env.equalizeHist face_img
  let name_uid := name_uid_of user
  let existing := store.filter (fun f => decide (f.subject = face_id))
  let n := existing.length + 1
  let fname : TrainFile :=
    { subject := face_id
      frag := if name_uid = "" then none else some name_uid
      seq := n }
  (face_img, fname, if fname ∈ store then store else store ++ [fname])

/-- `list_training_images` (app.py): the directory entries whose name
starts with `User.<face_id>.` (the source additionally sorts them
lexicographically; ordering is irrelevant to the stated claims and is not
modelled). -/
def list_training_images (face_id : ℤ) (store : List TrainFile) : List TrainFile :=
  store.filter (fun f => decide (f.subject = face_id))

/-- `delete_training_image` (app.py): `os.remove` succeeds iff the file
exists; on failure the directory is unchanged. -/
def delete_training_image (path : TrainFile) (store : List TrainFile) :
    Bool × List TrainFile :=
  if path ∈ store then (true, store.erase path) else (false, store)

/-- The LBPH recognizer object: `model.predict(face)` returns
`(label, confidence)`. -/
structure LbphModel (Img : Type) where
  predict : Img → ℤ × ℚ

/-- The unpickled sklearn KNN object: `model.predict(x)[0]` returns the
label; `hasProba` is `hasattr(model, "predict_proba")`; when present,
`maxProba` is `float(np.max(model.predict_proba(x)[0]))`. -/
structure SklearnModel (Img : Type) where
  predict : Img → ℤ
  hasProba : Bool
  maxProba : Img → ℚ

/-- The duck-typed `self.model` of `Predictor`, as a tagged union. -/
inductive ModelObj (Img : Type) where
  | lbphM : LbphModel Img → ModelObj Img
  | skM : SklearnModel Img → ModelObj Img

/-- `self.kind` of `Predictor`. -/
inductive PredictorKind where
  | lbph
  | sklearn
deriving DecidableEq

/-- The `Predictor` class (app.py). -/
structure Predictor (Img : Type) where
  kind : PredictorKind
  model : ModelObj Img
  proba_threshold : Option ℚ

/-- Python `self.proba_threshold or 0.80`: both `None` and `0.0` are falsy
and select the default. -/
def pyOrDefault (t : Option ℚ) : ℚ :=
  match t with
  | none => 4 / 5
  | some v => if v = 0 then 4 / 5 else v

/-- `Predictor.predict` (app.py). The kind/model mismatch branches cannot
arise for predictors built by `ensure_predictor` (in Python such a
mismatch would be a duck-typing crash); they return the label with a
rejecting gate. -/
def Predictor.predict {Img : Type} (p : Predictor Img) (face : Img) : ℤ × ℚ × Bool :=
  match p.kind with
  | .lbph =>
      match p.model with
      | .lbphM m =>
          ((m.predict face).1, (m.predict face).2,
            decide ((m.predict face).2 < CONFIDENCE_THRESHOLD))
      | .skM m => (m.predict face, 0, false)
  | .sklearn =>
      match p.model with
      | .skM m =>
          if m.hasProba then
            (m.predict face, m.maxProba face,
              decide (pyOrDefault p.proba_threshold ≤ m.maxProba face))
          else (m.predict face, 0, false)
      | .lbphM m => ((m.predict face).1, (m.predict face).2, false)

/-- The facts about the interpreter and filesystem that `ensure_predictor`
branches on: `hasattr(cv2, "face")`, existence of an LBPH create API,
existence of the two model files, and the outcome of deserializing each
(`none` models a raised exception, with the exception text alongside). -/
structure FsState (Img : Type) where
  hasCv2Face : Bool
  hasLbphCreate : Bool
  modelFileExists : Bool
  lbphLoad : Option (LbphModel Img)
  lbphLoadErr : String
  sklearnFileExists : Bool
  sklearnLoad : Option (SklearnModel Img)
  sklearnLoadErr : String

/-- `ensure_predictor` (app.py). Note that when `cv2.face` is present and
the LBPH model file exists, the function returns from inside the
`try/except` in every case: a failed LBPH load returns
`(None, "Failed to load LBPH model: ...")` without ever trying the sklearn
file. -/
def ensure_predictor {Img : Type} (st : FsState Img) :
    Option (Predictor Img) × Option String :=
  if st.hasCv2Face && st.modelFileExists then
    if st.hasLbphCreate then
      match st.lbphLoad with
      | some recognizer =>
          (some ⟨PredictorKind.lbph, ModelObj.lbphM recognizer, none⟩, none)
      | none => (none, some ("Failed to load LBPH model: " ++ st.lbphLoadErr))
    else
      (none, some "Failed to load LBPH model: LBPHFaceRecognizer API not found in cv2.face")
  else if st.sklearnFileExists then
    match st.sklearnLoad with
    | some knn =>
        (some ⟨PredictorKind.sklearn, ModelObj.skM knn, some SKLEARN_PROBA_THRESHOLD⟩, none)
    | none => (none, some ("Failed to load sklearn model: " ++ st.sklearnLoadErr))
  else (none, some "No trained model found. Ask admin to train (opencv-contrib preferred).")

/-- A file in `training_images/` as the trainer sees it: the dot-split
basename and the outcome of `cv2.imread` (`none` = unreadable). -/
structure DiskFile (Img : Type) where
  parts : List String
  img : Option Img

/-- Python `str.isdigit()` on ASCII digits: nonempty and all digits. -/
def strIsDigits (s : String) : Bool :=
  !s.data.isEmpty && s.data.all Char.isDigit

/-- Python `int(...)` on a digit string. -/
def strToNat (s : String) : ℕ :=
  s.data.foldl (fun acc c => acc * 10 + (c.toNat - 48)) 0

/-- The filename parse in `_collect_training_images` (trainer.py): at least
two dot-separated parts and a numeric second part. -/
def parse_face_id (parts : List String) : Option ℤ :=
  match parts with
  | _ :: p1 :: _ => if strIsDigits p1 then some (strToNat p1 : ℤ) else none
  | _ => none

/-- `_collect_training_images` (trainer.py): keep the files whose name
parses, paired with the parsed face id. -/
def _collect_training_images {Img : Type} (files : List (DiskFile Img)) :
    List (ℤ × DiskFile Img) :=
  files.filterMap (fun f => (parse_face_id f.parts).map (fun fid => (fid, f)))

/-- `_load_images_for_lbph` (trainer.py): skip unreadable files, equalize
then resize, return parallel image and label lists. -/
def _load_images_for_lbph {Img : Type} (env : CvEnv Img)
    (pairs : List (ℤ × DiskFile Img)) : List Img × List ℤ :=
  let loaded := pairs.filterMap
    (fun p => p.2.img.map (fun g => (p.1, env.resize (env.equalizeHist g) (200, 200))))
  (loaded.map Prod.snd, loaded.map Prod.fst)

/-- `_load_images_for_sklearn` (trainer.py): skip unreadable files, resize
then equalize then flatten; `none` when no file loaded (`if not X`). -/
def _load_images_for_sklearn {Img : Type} (env : CvEnv Img)
    (pairs : List (ℤ × DiskFile Img)) : Option (List Img × List ℤ) :=
  let loaded := pairs.filterMap
    (fun p => p.2.img.map
      (fun g => (p.1, env.flatten (env.equalizeHist (env.resize g (200, 200))))))
  if loaded.isEmpty then none else some (loaded.map Prod.snd, loaded.map Prod.fst)

/-- Interpreter facts and fallible-step outcomes that `train_model`
branches on: availability of `cv2.face` and of an LBPH create API, and
whether the LBPH train/write and the sklearn fit/pickle steps raise. -/
structure TrainEnv where
  hasCv2Face : Bool
  hasLbphCreate : Bool
  lbphTrainOk : Bool
  lbphTrainErr : String
  skFitOk : Bool
  skFitErr : String

/-- The LBPH path of `train_model` (trainer.py): its `(lbph_ok, lbph_msg)`
pair. When `cv2.face` exists but neither create API does, the recognizer
stays `None` and the message stays empty. -/
def lbph_result {Img : Type} (env : CvEnv Img) (hasCv2Face hasLbphCreate lbphTrainOk : Bool)
    (lbphTrainErr : String) (pairs : List (ℤ × DiskFile Img)) : Bool × String :=
  if hasCv2Face then
    if hasLbphCreate then
      if 2 ≤ (_load_images_for_lbph env pairs).1.length then
        if lbphTrainOk then
          (true, "LBPH model trained and saved to models/trained_model.yml (samples="
            ++ toString (_load_images_for_lbph env pairs).2.length ++ ")")
        else (false, "LBPH training failed: " ++ lbphTrainErr)
      else (false, "Not enough images for LBPH (need at least 2).")
    else (false, "")
  else (false, "cv2.face (opencv-contrib) not available. Skipping LBPH.")

/-- The sklearn path of `train_model` (trainer.py): its `(sk_ok, sk_msg)`
pair. It depends only on the sklearn-side outcomes, never on the LBPH
path. -/
def sk_result {Img : Type} (env : CvEnv Img) (skFitOk : Bool) (skFitErr : String)
    (pairs : List (ℤ × DiskFile Img)) : Bool × String :=
  match _load_images_for_sklearn env pairs with
  | some xy =>
      if 2 ≤ xy.1.length then
        if skFitOk then
          (true, "Sklearn KNN trained and saved to models/sklearn_model.pkl (samples="
            ++ toString xy.2.length ++ ")")
        else (false, "Sklearn training failed: " ++ skFitErr)
      else (false, "Not enough images for sklearn training (need at least 2).")
  | none => (false, "Not enough images for sklearn training (need at least 2).")

/-- `train_model` (trainer.py). -/
def train_model {Img : Type} (env : CvEnv Img) (te : TrainEnv)
    (files : List (DiskFile Img)) : Bool × String :=
  let pairs := _collect_training_images files
  if pairs.isEmpty then (false, "No training images found in training_images/")
  else
    let lr := lbph_result env te.hasCv2Face te.hasLbphCreate te.lbphTrainOk te.lbphTrainErr pairs
    let sr := sk_result env te.skFitOk te.skFitErr pairs
    if lr.1 || sr.1 then
      (true, String.intercalate " | "
        ((if lr.2 = "" then [] else [lr.2]) ++ (if sr.2 = "" then [] else [sr.2])))
    else
      (false, "Training failed. LBPH: " ++ lr.2 ++ "; Sklearn: " ++ sr.2)

/-- Number of gallery files that both parse and decode — the samples the
two training paths actually consume. -/
def usableSampleCount {Img : Type} (files : List (DiskFile Img)) : ℕ :=
  ((_collect_training_images files).filterMap (fun p => p.2.img)).length

/-- Per-file body of the `admin_evaluate` loop (app.py): skip unreadable
files, preprocess, and score through the loaded LBPH model
(`predictConf g = none` models `rec.model.predict` raising). -/
def evalFileScore {Img : Type} (env : CvEnv Img) (predictConf : Img → Option ℚ)
    (o : Option Img) : Option ℚ :=
  match o with
  | none => none
  | some img =>
      match preprocess_img_np env (some img) (200, 200) with
      | none => none
      | some proc => predictConf proc

/-- The `confs` list collected by `admin_evaluate` (app.py) over the
decode results of the gallery files. -/
def admin_evaluate_confs {Img : Type} (env : CvEnv Img) (predictConf : Img → Option ℚ)
    (decoded : List (Option Img)) : List ℚ :=
  decoded.filterMap (evalFileScore env predictConf)

/-- Python `min` over a nonempty list (0 on the empty list, unreached). -/
def listMin : List ℚ → ℚ
  | [] => 0
  | x :: xs => xs.foldl min x

/-- Python `max` over a nonempty list (0 on the empty list, unreached). -/
def listMax : List ℚ → ℚ
  | [] => 0
  | x :: xs => xs.foldl max x

/-- `statistics.median`: sort; middle element for odd length, mean of the
two middle elements for even length. -/
def median (l : List ℚ) : ℚ :=
  if l.length = 0 then 0
  else if l.length % 2 = 1 then (l.mergeSort (fun a b => decide (a ≤ b))).getD (l.length / 2) 0
  else ((l.mergeSort (fun a b => decide (a ≤ b))).getD (l.length / 2 - 1) 0
        + (l.mergeSort (fun a b => decide (a ≤ b))).getD (l.length / 2) 0) / 2

/-- The fields of `session['user']` that `mark_attendance` reads. -/
structure SessionUser where
  username : String
  face_id : Option ℤ

/-- How the request supplied the photo, with the decode outcome: JSON body
with missing/undecodable/valid base64, or multipart form with
missing/undecodable/valid file. -/
inductive ImgSrc (Img : Type) where
  | jsonMissing : ImgSrc Img
  | jsonInvalid : ImgSrc Img
  | jsonImage : Img → ImgSrc Img
  | formMissing : ImgSrc Img
  | formInvalid : ImgSrc Img
  | formImage : Img → ImgSrc Img

/-- The successfully decoded PIL image, if any. -/
def ImgSrc.decodedImage {Img : Type} : ImgSrc Img → Option Img
  | .jsonImage g => some g
  | .formImage g => some g
  | _ => none

/-- Observable outcome of the `/attendance/mark` route: whether
`record_attendance` was called, for which label, and the user-facing
message. -/
structure MarkOutcome where
  recorded : Bool
  recordedFor : Option ℤ
  message : String

/-- The `mark_attendance` route (app.py). `getFaceName` is the DB accessor
`get_face_name`; Python `get_face_name(label) or f"User{label}"` treats an
empty name as falsy. The debug log write is diagnostic only and is not
modelled. -/
def mark_attendance {Img : Type} (env : CvEnv Img) (fs : FsState Img)
    (getFaceName : ℤ → Option String) (sessionUser : Option SessionUser)
    (src : ImgSrc Img) : MarkOutcome :=
  match sessionUser with
  | none => ⟨false, none, "Login required"⟩
  | some user =>
      match src.decodedImage with
      | none => ⟨false, none, "No image provided or invalid image"⟩
      | some pil =>
          match preprocess_face_np env (some (env.toGray pil)) with
          | none => ⟨false, none, "No face detected"⟩
          | some face =>
              match (ensure_predictor fs).1 with
              | none =>
                  ⟨false, none, "Model not loaded: " ++ ((ensure_predictor fs).2.getD "")⟩
              | some predictor =>
                  if (predictor.predict face).2.2 = false then
                    ⟨false, none, "Not confident enough to mark attendance"⟩
                  else
                    match user.face_id with
                    | none => ⟨false, none, "No face id assigned to your account"⟩
                    | some user_face_id =>
                        if (predictor.predict face).1 ≠ user_face_id then
                          ⟨false, none,
                            "Recognized as id " ++ toString (predictor.predict face).1
                              ++ ", which does not match your assigned id "
                              ++ toString user_face_id⟩
                        else
                          ⟨true, some (predictor.predict face).1,
                            "Recognized as "
                              ++ (match getFaceName (predictor.predict face).1 with
                                  | some nm => if nm = "" then "User" ++ toString (predictor.predict face).1 else nm
                                  | none => "User" ++ toString (predictor.predict face).1)
                              ++ " — attendance recorded"⟩

/-! ### Concrete fixtures used by counterexamples and witnesses -/

/-- A trivial raster environment over the one-point image type. -/
def envUnit : CvEnv Unit where
  shape _ := (200, 200)
  detectMultiScale _ := []
  slice g _ _ _ _ := g
  equalizeHist g := g
  resize g _ := g
  toGray g := g
  flatten g := g

/-- A trivial raster environment over rational-valued abstract images. -/
def envRat : CvEnv ℚ where
  shape _ := (200, 200)
  detectMultiScale _ := []
  slice g _ _ _ _ := g
  equalizeHist g := g
  resize g _ := g
  toGray g := g
  flatten g := g

/-- A concrete LBPH model: every sample scores label 3 at distance 42. -/
def lbphUnit : LbphModel Unit := ⟨fun _ => (3, 42)⟩

/-- A concrete KNN model with `predict_proba`: label 7, max probability 0.9. -/
def knnUnit : SklearnModel Unit := ⟨fun _ => 7, true, fun _ => 9 / 10⟩

/-- A concrete KNN model without `predict_proba`. -/
def knnUnitNoProba : SklearnModel Unit := ⟨fun _ => 7, false, fun _ => 9 / 10⟩

/-- State for the C1 counterexample: `cv2.face` present, LBPH model file
present but its deserialization raises, sklearn model file present and
loadable. -/
def fsLbphCorrupt : FsState Unit :=
  ⟨true, true, true, none, "bad model file", true, some knnUnit, ""⟩

/-- State with a healthy LBPH model file. -/
def fsLbphOk : FsState Unit :=
  ⟨true, true, true, some lbphUnit, "", false, none, ""⟩

/-- A training run environment without opencv-contrib where the sklearn
fit succeeds. -/
def teSklearnOnly : TrainEnv := ⟨false, false, false, "", true, ""⟩

/-- A training run environment with opencv-contrib where both fits would
succeed. -/
def teFull : TrainEnv := ⟨true, true, true, "", true, ""⟩

/-- A gallery listing with a single parseable, readable file. -/
def oneFile : List (DiskFile Unit) := [⟨["User", "1", "1", "jpg"], some ()⟩]

/-- A gallery listing with two parseable, readable files. -/
def twoFiles : List (DiskFile Unit) :=
  [⟨["User", "1", "1", "jpg"], some ()⟩, ⟨["User", "2", "1", "jpg"], some ()⟩]

/-- One enrollment save for subject 1 under the trivial environment,
projected to its filename/listing effect. -/
def c9Save (store : List TrainFile) : TrainFile × List TrainFile :=
  ((save_training_image_for_face envUnit 1 none () store).2.1,
   (save_training_image_for_face envUnit 1 none () store).2.2)

/-- Listing after one save for subject 1. -/
def c9S1 : List TrainFile := (c9Save []).2

/-- Listing after two saves for subject 1. -/
def c9S2 : List TrainFile := (c9Save c9S1).2

/-- Listing after three saves for subject 1. -/
def c9S3 : List TrainFile := (c9Save c9S2).2

/-- Listing after three saves for subject 1 and deletion of the second
file: sequence numbers 1 and 3 remain. -/
def c9S4 : List TrainFile := (delete_training_image ⟨1, none, 2⟩ c9S3).2

/-! ### Claim C1: predictor loading precedence -/

/-- C1 (claim as stated, refuted): a state in which the LBPH model file is
present but fails to deserialize while a loadable sklearn model file
exists; `ensure_predictor` nevertheless returns no predictor at all (the
`except` branch returns before the sklearn file is tried), so the
Predictor is not backed by the neighbor model. The fifth conjunct shows
the very same sklearn file would load fine were the LBPH file absent. -/
theorem C1_counterexample :
    fsLbphCorrupt.modelFileExists = true
    ∧ fsLbphCorrupt.lbphLoad = none
    ∧ fsLbphCorrupt.sklearnFileExists = true
    ∧ fsLbphCorrupt.sklearnLoad = some knnUnit
    ∧ (ensure_predictor { fsLbphCorrupt with modelFileExists := false }).1
        = some ⟨PredictorKind.sklearn, ModelObj.skM knnUnit, some SKLEARN_PROBA_THRESHOLD⟩
    ∧ (ensure_predictor fsLbphCorrupt).1 = none
    ∧ (ensure_predictor fsLbphCorrupt).2 = some "Failed to load LBPH model: bad model file" :=
  ⟨rfl, rfl, rfl, rfl, rfl, rfl, rfl⟩

/-- C1 (amended): the histogram branch is entered exactly when `cv2.face`
exists and the histogram model file exists, and it then decides the
outcome alone — success selects the LBPH backend, any failure (missing
create API or a failed load) returns Unavailable with a
"Failed to load LBPH model" reason and the neighbor file is never tried.
The neighbor file is consulted only when the histogram branch is not
entered; with no usable file at all the result is Unavailable with the
"No trained model found" reason. -/
theorem C1_amended_loading {Img : Type} (st : FsState Img) :
    (∀ m : LbphModel Img, st.hasCv2Face = true → st.modelFileExists = true →
      st.hasLbphCreate = true → st.lbphLoad = some m →
      ensure_predictor st = (some ⟨PredictorKind.lbph, ModelObj.lbphM m, none⟩, none))
    ∧ (st.hasCv2Face = true → st.modelFileExists = true →
        (st.hasLbphCreate = false ∨ st.lbphLoad = none) →
        (ensure_predictor st).1 = none
        ∧ ∃ e, (ensure_predictor st).2 = some ("Failed to load LBPH model: " ++ e))
    ∧ (∀ k : SklearnModel Img, ¬(st.hasCv2Face = true ∧ st.modelFileExists = true) →
        st.sklearnFileExists = true → st.sklearnLoad = some k →
        ensure_predictor st
          = (some ⟨PredictorKind.sklearn, ModelObj.skM k, some SKLEARN_PROBA_THRESHOLD⟩, none))
    ∧ (¬(st.hasCv2Face = true ∧ st.modelFileExists = true) → st.sklearnFileExists = false →
        ensure_predictor st
          = (none, some "No trained model found. Ask admin to train (opencv-contrib preferred).")) := by
  refine ⟨?_, ?_, ?_, ?_⟩
  · intro m h1 h2 h3 h4
    simp [ensure_predictor, h1, h2, h3, h4]
  · intro h1 h2 h3
    cases hc : st.hasLbphCreate with
    | false =>
        refine ⟨by simp [ensure_predictor, h1, h2, hc], ?_⟩
        refine ⟨"LBPHFaceRecognizer API not found in cv2.face", ?_⟩
        simp [ensure_predictor, h1, h2, hc]
    | true =>
        rcases h3 with h3 | h3
        · rw [hc] at h3; cases h3
        · refine ⟨by simp [ensure_predictor, h1, h2, hc, h3], ?_⟩
          refine ⟨st.lbphLoadErr, ?_⟩
          simp [ensure_predictor, h1, h2, hc, h3]
  · intro k h1 h2 h3
    have hb : (st.hasCv2Face && st.modelFileExists) = false := by
      rcases ha : st.hasCv2Face <;> rcases hm : st.modelFileExists <;> simp_all
    simp [ensure_predictor, hb, h2, h3]
  · intro h1 h2
    have hb : (st.hasCv2Face && st.modelFileExists) = false := by
      rcases ha : st.hasCv2Face <;> rcases hm : st.modelFileExists <;> simp_all
    simp [ensure_predictor, hb, h2]

/-- C1 amended, witnessed on a healthy LBPH state. -/
theorem C1_amended_witness :
    fsLbphOk.hasCv2Face = true ∧ fsLbphOk.modelFileExists = true
    ∧ fsLbphOk.hasLbphCreate = true ∧ fsLbphOk.lbphLoad = some lbphUnit
    ∧ ensure_predictor fsLbphOk
        = (some ⟨PredictorKind.lbph, ModelObj.lbphM lbphUnit, none⟩, none) :=
  ⟨rfl, rfl, rfl, rfl, (C1_amended_loading fsLbphOk).1 lbphUnit rfl rfl rfl rfl⟩

/-! ### Claim C3: acceptance gates -/

/-- C3: for every canonical input sample, the LBPH backend accepts exactly
when the distance score is strictly below `CONFIDENCE_THRESHOLD = 100`,
and the KNN backend (built by `ensure_predictor`, so with the default
probability threshold) accepts exactly when the maximum class probability
is at least `SKLEARN_PROBA_THRESHOLD = 0.80`. -/
theorem C3_acceptance_gates {Img : Type} (m : LbphModel Img) (k : SklearnModel Img)
    (hk : k.hasProba = true) (face : Img) :
    (((Predictor.mk PredictorKind.lbph (ModelObj.lbphM m) none).predict face).2.2 = true
      ↔ (m.predict face).2 < CONFIDENCE_THRESHOLD)
    ∧ (((Predictor.mk PredictorKind.sklearn (ModelObj.skM k)
          (some SKLEARN_PROBA_THRESHOLD)).predict face).2.2 = true
      ↔ SKLEARN_PROBA_THRESHOLD ≤ k.maxProba face) := by
  have h45 : pyOrDefault (some SKLEARN_PROBA_THRESHOLD) = SKLEARN_PROBA_THRESHOLD := by
    simp [pyOrDefault, SKLEARN_PROBA_THRESHOLD]
  constructor
  · simp [Predictor.predict]
  · simp [Predictor.predict, hk, h45]

/-- C3, witnessed: a model scoring distance 42 is accepted by the LBPH
gate, and a model with max probability 0.9 is accepted by the KNN gate. -/
theorem C3_acceptance_witness :
    knnUnit.hasProba = true
    ∧ (((Predictor.mk PredictorKind.lbph (ModelObj.lbphM lbphUnit) none).predict ()).2.2 = true
        ↔ (lbphUnit.predict ()).2 < CONFIDENCE_THRESHOLD)
    ∧ (((Predictor.mk PredictorKind.sklearn (ModelObj.skM knnUnit)
          (some SKLEARN_PROBA_THRESHOLD)).predict ()).2.2 = true
        ↔ SKLEARN_PROBA_THRESHOLD ≤ knnUnit.maxProba ()) :=
  ⟨rfl, (C3_acceptance_gates lbphUnit knnUnit rfl ()).1,
    (C3_acceptance_gates lbphUnit knnUnit rfl ()).2⟩

/-! ### Claim C10: sklearn model without predict_proba -/

/-- C10: when the loaded sklearn model lacks `predict_proba`, predict
returns the predicted label with confidence 0.0 and `accepted = False`,
for every input sample and any configured threshold. -/
theorem C10_no_proba_capability {Img : Type} (k : SklearnModel Img)
    (hk : k.hasProba = false) (t : Option ℚ) (face : Img) :
    (Predictor.mk PredictorKind.sklearn (ModelObj.skM k) t).predict face
      = (k.predict face, 0, false) := by
  simp [Predictor.predict, hk]

/-- C10, witnessed on a concrete proba-less model. -/
theorem C10_no_proba_witness :
    knnUnitNoProba.hasProba = false
    ∧ (Predictor.mk PredictorKind.sklearn (ModelObj.skM knnUnitNoProba)
        (some SKLEARN_PROBA_THRESHOLD)).predict () = (knnUnitNoProba.predict (), 0, false) :=
  ⟨rfl, C10_no_proba_capability knnUnitNoProba rfl (some SKLEARN_PROBA_THRESHOLD) ()⟩

/-! ### Trainer helper lemmas -/

/-- Mapping the payload inside the option does not change how many entries
a `filterMap` keeps. -/
theorem length_filterMap_map {α β γ : Type} (l : List α) (f : α → Option β) (g : α → β → γ) :
    (l.filterMap (fun a => (f a).map (g a))).length = (l.filterMap f).length := by
  induction l with
  | nil => rfl
  | cons a t ih => cases h : f a <;> simp [List.filterMap_cons, h, ih]

/-- The LBPH loader keeps exactly the readable files. -/
theorem load_lbph_length {Img : Type} (env : CvEnv Img) (pairs : List (ℤ × DiskFile Img)) :
    (_load_images_for_lbph env pairs).1.length
      = (pairs.filterMap (fun p => p.2.img)).length := by
  unfold _load_images_for_lbph
  simp only [List.length_map]
  exact length_filterMap_map pairs _ _

/-- The sklearn loader returns `none` exactly when no file was readable. -/
theorem load_sklearn_none_iff {Img : Type} (env : CvEnv Img) (pairs : List (ℤ × DiskFile Img)) :
    _load_images_for_sklearn env pairs = none
      ↔ (pairs.filterMap (fun p => p.2.img)).length = 0 := by
  unfold _load_images_for_sklearn
  rw [← length_filterMap_map pairs (fun p => p.2.img)
    (fun p g => (p.1, env.flatten (env.equalizeHist (env.resize g (200, 200)))))]
  constructor
  · intro h
    by_cases he : (pairs.filterMap (fun p =>
        p.2.img.map (fun g => (p.1, env.flatten (env.equalizeHist (env.resize g (200, 200))))))).isEmpty
    · rwa [List.isEmpty_iff_length_eq_zero] at he
    · rw [if_neg he] at h; cases h
  · intro h
    rw [if_pos (by rwa [List.isEmpty_iff_length_eq_zero])]

/-- When the sklearn loader succeeds, its sample list has exactly the
readable files. -/
theorem load_sklearn_some_length {Img : Type} (env : CvEnv Img)
    (pairs : List (ℤ × DiskFile Img)) (xy : List Img × List ℤ)
    (h : _load_images_for_sklearn env pairs = some xy) :
    xy.1.length = (pairs.filterMap (fun p => p.2.img)).length := by
  unfold _load_images_for_sklearn at h
  by_cases he : (pairs.filterMap (fun p =>
      p.2.img.map (fun g => (p.1, env.flatten (env.equalizeHist (env.resize g (200, 200))))))).isEmpty
  · rw [if_pos he] at h; cases h
  · rw [if_neg he] at h
    cases h
    simp only [List.length_map]
    exact length_filterMap_map pairs _ _

/-- The sklearn path fails with the insufficiency message whenever fewer
than 2 readable files exist. -/
theorem sk_result_insufficient {Img : Type} (env : CvEnv Img) (skOk : Bool) (skErr : String)
    (pairs : List (ℤ × DiskFile Img))
    (h : (pairs.filterMap (fun p => p.2.img)).length < 2) :
    sk_result env skOk skErr pairs
      = (false, "Not enough images for sklearn training (need at least 2).") := by
  unfold sk_result
  cases hload : _load_images_for_sklearn env pairs with
  | none => rfl
  | some xy =>
      have hx := load_sklearn_some_length env pairs xy hload
      have hlt : ¬ 2 ≤ xy.1.length := by omega
      simp [hlt]

/-- The LBPH path cannot succeed with fewer than 2 readable files,
whatever the interpreter configuration. -/
theorem lbph_result_insufficient {Img : Type} (env : CvEnv Img) (hf hc lok : Bool)
    (lerr : String) (pairs : List (ℤ × DiskFile Img))
    (h : (pairs.filterMap (fun p => p.2.img)).length < 2) :
    (lbph_result env hf hc lok lerr pairs).1 = false := by
  have hl := load_lbph_length env pairs
  have hlt : ¬ 2 ≤ (_load_images_for_lbph env pairs).1.length := by omega
  cases hf <;> cases hc <;> simp [lbph_result, hlt]

/-- With opencv-contrib present, fewer than 2 readable files make the LBPH
path fail with the insufficiency message. -/
theorem lbph_result_insufficient_msg {Img : Type} (env : CvEnv Img) (lok : Bool)
    (lerr : String) (pairs : List (ℤ × DiskFile Img))
    (h : (pairs.filterMap (fun p => p.2.img)).length < 2) :
    lbph_result env true true lok lerr pairs
      = (false, "Not enough images for LBPH (need at least 2).") := by
  have hl := load_lbph_length env pairs
  have hlt : ¬ 2 ≤ (_load_images_for_lbph env pairs).1.length := by omega
  simp [lbph_result, hlt]

/-- `train_model`'s success flag is the disjunction of the two paths'
flags. -/
theorem train_model_fst {Img : Type} (env : CvEnv Img) (te : TrainEnv)
    (files : List (DiskFile Img)) :
    (train_model env te files).1
      = ((lbph_result env te.hasCv2Face te.hasLbphCreate te.lbphTrainOk te.lbphTrainErr
            (_collect_training_images files)).1
        || (sk_result env te.skFitOk te.skFitErr (_collect_training_images files)).1) := by
  unfold train_model
  by_cases hni : (_collect_training_images files).isEmpty
  · rw [if_pos hni]
    have hpe : _collect_training_images files = [] := List.isEmpty_iff.mp hni
    rw [hpe]
    rw [lbph_result_insufficient env te.hasCv2Face te.hasLbphCreate te.lbphTrainOk
      te.lbphTrainErr [] (by simp)]
    rw [sk_result_insufficient env te.skFitOk te.skFitErr [] (by simp)]
    rfl
  · rw [if_neg hni]
    by_cases hor : ((lbph_result env te.hasCv2Face te.hasLbphCreate te.lbphTrainOk
        te.lbphTrainErr (_collect_training_images files)).1
      || (sk_result env te.skFitOk te.skFitErr (_collect_training_images files)).1) = true
    · rw [if_pos hor, hor]
    · rw [if_neg hor]
      simp only [Bool.not_eq_true] at hor
      rw [hor]

/-- When both paths fail on a non-empty parseable gallery, the failure
message concatenates both sub-results. -/
theorem train_model_failure_msg {Img : Type} (env : CvEnv Img) (te : TrainEnv)
    (files : List (DiskFile Img)) (hne : _collect_training_images files ≠ [])
    (hlb : (lbph_result env te.hasCv2Face te.hasLbphCreate te.lbphTrainOk te.lbphTrainErr
        (_collect_training_images files)).1 = false)
    (hsk : (sk_result env te.skFitOk te.skFitErr (_collect_training_images files)).1 = false) :
    (train_model env te files).2
      = "Training failed. LBPH: "
        ++ (lbph_result env te.hasCv2Face te.hasLbphCreate te.lbphTrainOk te.lbphTrainErr
              (_collect_training_images files)).2
        ++ "; Sklearn: "
        ++ (sk_result env te.skFitOk te.skFitErr (_collect_training_images files)).2 := by
  unfold train_model
  rw [if_neg (by simpa [List.isEmpty_iff] using hne)]
  rw [if_neg (by simp [hlb, hsk])]

/-- Any readable file yields a parseable pair, so one usable sample means
the parseable listing is non-empty. -/
theorem collect_ne_nil_of_usable {Img : Type} (files : List (DiskFile Img))
    (h : usableSampleCount files ≠ 0) : _collect_training_images files ≠ [] := by
  intro hn
  unfold usableSampleCount at h
  rw [hn] at h
  exact h rfl

/-! ### Claim C4: training with fewer than 2 usable samples -/

/-- C4: with fewer than 2 usable (parseable and readable) gallery samples,
`train_model` fails; and when opencv-contrib is present and exactly one
usable sample exists, the failure message reports insufficiency for both
the histogram and the neighbor backend. -/
theorem C4_insufficient_samples {Img : Type} (env : CvEnv Img) (te : TrainEnv)
    (files : List (DiskFile Img)) (h2 : usableSampleCount files < 2) :
    (train_model env te files).1 = false
    ∧ (te.hasCv2Face = true → te.hasLbphCreate = true → usableSampleCount files = 1 →
        (train_model env te files).2
          = "Training failed. LBPH: Not enough images for LBPH (need at least 2).; Sklearn: Not enough images for sklearn training (need at least 2).") := by
  have hu : usableSampleCount files
      = ((_collect_training_images files).filterMap (fun p => p.2.img)).length := rfl
  rw [hu] at h2
  constructor
  · rw [train_model_fst]
    rw [lbph_result_insufficient env te.hasCv2Face te.hasLbphCreate te.lbphTrainOk
      te.lbphTrainErr _ h2]
    rw [sk_result_insufficient env te.skFitOk te.skFitErr _ h2]
    rfl
  · intro hf hc h1
    have hne : _collect_training_images files ≠ [] :=
      collect_ne_nil_of_usable files (by rw [h1]; exact one_ne_zero)
    rw [train_model_failure_msg env te files hne
      (lbph_result_insufficient env te.hasCv2Face te.hasLbphCreate te.lbphTrainOk
        te.lbphTrainErr _ h2)
      (by rw [sk_result_insufficient env te.skFitOk te.skFitErr _ h2])]
    rw [hf, hc]
    rw [lbph_result_insufficient_msg env te.lbphTrainOk te.lbphTrainErr _ h2]
    rw [sk_result_insufficient env te.skFitOk te.skFitErr _ h2]
    rfl

/-- C4, witnessed: a gallery with exactly one usable file fails training
with the double insufficiency message under a full interpreter. -/
theorem C4_insufficient_witness :
    usableSampleCount oneFile < 2 ∧ teFull.hasCv2Face = true ∧ teFull.hasLbphCreate = true
    ∧ usableSampleCount oneFile = 1
    ∧ (train_model envUnit teFull oneFile).1 = false
    ∧ (train_model envUnit teFull oneFile).2
        = "Training failed. LBPH: Not enough images for LBPH (need at least 2).; Sklearn: Not enough images for sklearn training (need at least 2)." :=
  ⟨by decide, rfl, rfl, by decide,
    (C4_insufficient_samples envUnit teFull oneFile (by decide)).1,
    (C4_insufficient_samples envUnit teFull oneFile (by decide)).2 rfl rfl (by decide)⟩

/-! ### Claim C5: dual-backend success semantics -/

/-- C5: `train_model` succeeds exactly when at least one of the two
backend paths succeeded; a successful sklearn path forces overall success
regardless of the histogram path's fate (the sklearn sub-result is
computed from the sklearn-side inputs alone, so a histogram failure never
prevents it); and on overall failure over a non-empty parseable gallery
the message concatenates both sub-results. -/
theorem C5_dual_backend {Img : Type} (env : CvEnv Img) (te : TrainEnv)
    (files : List (DiskFile Img)) :
    ((train_model env te files).1
      = ((lbph_result env te.hasCv2Face te.hasLbphCreate te.lbphTrainOk te.lbphTrainErr
            (_collect_training_images files)).1
        || (sk_result env te.skFitOk te.skFitErr (_collect_training_images files)).1))
    ∧ ((sk_result env te.skFitOk te.skFitErr (_collect_training_images files)).1 = true →
        (train_model env te files).1 = true)
    ∧ ((train_model env te files).1 = false → _collect_training_images files ≠ [] →
        (train_model env te files).2
          = "Training failed. LBPH: "
            ++ (lbph_result env te.hasCv2Face te.hasLbphCreate te.lbphTrainOk te.lbphTrainErr
                  (_collect_training_images files)).2
            ++ "; Sklearn: "
            ++ (sk_result env te.skFitOk te.skFitErr (_collect_training_images files)).2) := by
  refine ⟨train_model_fst env te files, ?_, ?_⟩
  · intro hsk
    rw [train_model_fst, hsk, Bool.or_true]
  · intro hfail hne
    have h := train_model_fst env te files
    rw [hfail] at h
    have hor := h.symm
    rw [Bool.or_eq_false_iff] at hor
    exact train_model_failure_msg env te files hne hor.1 hor.2

/-- C5, witnessed: without opencv-contrib the histogram path fails, yet a
two-sample gallery trains successfully through the sklearn path alone. -/
theorem C5_dual_backend_witness :
    (lbph_result envUnit teSklearnOnly.hasCv2Face teSklearnOnly.hasLbphCreate
        teSklearnOnly.lbphTrainOk teSklearnOnly.lbphTrainErr
        (_collect_training_images twoFiles)).1 = false
    ∧ (sk_result envUnit teSklearnOnly.skFitOk teSklearnOnly.skFitErr
        (_collect_training_images twoFiles)).1 = true
    ∧ (train_model envUnit teSklearnOnly twoFiles).1 = true :=
  ⟨by decide, by decide,
    (C5_dual_backend envUnit teSklearnOnly twoFiles).2.1 (by decide)⟩

/-! ### Store helper lemmas -/

/-- A written filename is in the updated directory listing, whether or not
it overwrote an existing file. -/
theorem mem_save_store (f : TrainFile) (store : List TrainFile) :
    f ∈ (if f ∈ store then store else store ++ [f]) := by
  split
  · assumption
  · simp

/-- The filename and listing components of `save_training_image_for_face`,
spelled out: the sequence number is the current per-subject file count
plus one, and writing adds the name to the listing unless it already
exists. -/
theorem save_store_eq {Img : Type} (env : CvEnv Img) (fid : ℤ) (user : Option UserRow)
    (pil : Img) (store : List TrainFile) :
    (save_training_image_for_face env fid user pil store).2.1
      = { subject := fid
          frag := if name_uid_of user = "" then none else some (name_uid_of user)
          seq := (store.filter (fun f => decide (f.subject = fid))).length + 1 }
    ∧ (save_training_image_for_face env fid user pil store).2.2
      = (if (save_training_image_for_face env fid user pil store).2.1 ∈ store then store
         else store ++ [(save_training_image_for_face env fid user pil store).2.1]) :=
  ⟨rfl, rfl⟩

/-- In a duplicate-free listing, a member of the post-save listing sharing
the subject appears exactly once in the per-subject filter. -/
theorem saved_count_one (fid : ℤ) (f : TrainFile) (store : List TrainFile)
    (hnd : store.Nodup) (hsub : f.subject = fid) :
    ((if f ∈ store then store else store ++ [f]).filter
        (fun g => decide (g.subject = fid))).count f = 1 := by
  have hnd' : (if f ∈ store then store else store ++ [f]).Nodup := by
    split
    · exact hnd
    · next hnm => simp [List.nodup_append, hnd, hnm]
  have hmem : f ∈ (if f ∈ store then store else store ++ [f]) := mem_save_store f store
  have hfil : f ∈ (if f ∈ store then store else store ++ [f]).filter
      (fun g => decide (g.subject = fid)) :=
    List.mem_filter.mpr ⟨hmem, by simp [hsub]⟩
  exact List.count_eq_one_of_mem (hnd'.filter _) hfil

/-- After a delete, a duplicate-free listing no longer contains the
deleted path. -/
theorem deleted_excluded (path : TrainFile) (store : List TrainFile) (hnd : store.Nodup)
    (fid : ℤ) :
    path ∉ (delete_training_image path store).2.filter (fun g => decide (g.subject = fid)) := by
  intro hmem
  unfold delete_training_image at hmem
  split at hmem
  · have h1 := (List.mem_filter.mp hmem).1
    exact ((List.Nodup.mem_erase_iff hnd).mp h1).1 rfl
  · next hns => exact hns (List.mem_filter.mp hmem).1

/-! ### Claim C6: enrollment/recognition asymmetry on zero detections -/

/-- C6: when the cascade finds no face rectangle, the recognition-path
normalizer fails (returns no sample), while the enrollment-path transform
falls back to resizing the whole grayscale image, equalizes it, and still
writes a sample into the store. -/
theorem C6_enrollment_asymmetry {Img : Type} (env : CvEnv Img) (face_id : ℤ)
    (user : Option UserRow) (pil : Img) (store : List TrainFile)
    (hno : env.detectMultiScale (env.toGray pil) = []) :
    preprocess_face_np env (some (env.toGray pil)) = none
    ∧ (save_training_image_for_face env face_id user pil store).1
        = env.equalizeHist (env.resize (env.toGray pil) (200, 200))
    ∧ (save_training_image_for_face env face_id user pil store).2.1
        ∈ (save_training_image_for_face env face_id user pil store).2.2 := by
  refine ⟨?_, ?_, ?_⟩
  · simp [preprocess_face_np, hno]
  · simp [save_training_image_for_face, hno]
  · rw [(save_store_eq env face_id user pil store).2]
    exact mem_save_store _ _

/-- C6, witnessed on the trivial environment (its detector returns no
rectangles on any image). -/
theorem C6_enrollment_witness :
    envUnit.detectMultiScale (envUnit.toGray ()) = []
    ∧ preprocess_face_np envUnit (some (envUnit.toGray ())) = none
    ∧ (save_training_image_for_face envUnit 1 none () []).1
        = envUnit.equalizeHist (envUnit.resize (envUnit.toGray ()) (200, 200))
    ∧ (save_training_image_for_face envUnit 1 none () []).2.1
        ∈ (save_training_image_for_face envUnit 1 none () []).2.2 := by
  have h := C6_enrollment_asymmetry envUnit 1 none () [] rfl
  exact ⟨rfl, h.1, h.2.1, h.2.2⟩

/-! ### Claim C8: store round-trip -/

/-- C8: over a duplicate-free directory listing, the path created by a
save appears exactly once in the subsequent per-subject listing, and after
a delete the deleted path no longer appears in the listing. -/
theorem C8_store_roundtrip {Img : Type} (env : CvEnv Img) (fid : ℤ) (user : Option UserRow)
    (pil : Img) (store : List TrainFile) (path : TrainFile) (hnd : store.Nodup) :
    (list_training_images fid (save_training_image_for_face env fid user pil store).2.2).count
        (save_training_image_for_face env fid user pil store).2.1 = 1
    ∧ path ∉ list_training_images fid (delete_training_image path store).2 := by
  obtain ⟨hf1, hf2⟩ := save_store_eq env fid user pil store
  constructor
  · unfold list_training_images
    rw [hf2]
    exact saved_count_one fid _ store hnd (by rw [hf1])
  · exact deleted_excluded path store hnd fid

/-- C8, witnessed on a concrete two-file listing. -/
theorem C8_store_roundtrip_witness :
    ([(⟨1, none, 1⟩ : TrainFile), ⟨2, none, 1⟩] : List TrainFile).Nodup
    ∧ (list_training_images 1
        (save_training_image_for_face envUnit 1 none ()
          [(⟨1, none, 1⟩ : TrainFile), ⟨2, none, 1⟩]).2.2).count
        (save_training_image_for_face envUnit 1 none ()
          [(⟨1, none, 1⟩ : TrainFile), ⟨2, none, 1⟩]).2.1 = 1
    ∧ (⟨1, none, 1⟩ : TrainFile) ∉ list_training_images 1
        (delete_training_image ⟨1, none, 1⟩
          [(⟨1, none, 1⟩ : TrainFile), ⟨2, none, 1⟩]).2 :=
  ⟨by decide,
    (C8_store_roundtrip envUnit 1 none () [⟨1, none, 1⟩, ⟨2, none, 1⟩] ⟨1, none, 1⟩
      (by decide)).1,
    (C8_store_roundtrip envUnit 1 none () [⟨1, none, 1⟩, ⟨2, none, 1⟩] ⟨1, none, 1⟩
      (by decide)).2⟩

/-! ### Claim C9: per-subject sequence numbers -/

/-- C9 (claim as stated, refuted): after saving three samples for subject
1 and deleting the second, the next save derives sequence number
`count + 1 = 3`, which is not strictly greater than the existing sequence
number 3 — indeed the save returns a filename already present in the
listing, overwriting it. -/
theorem C9_counterexample :
    (⟨1, none, 3⟩ : TrainFile) ∈ c9S4.filter (fun g => decide (g.subject = 1))
    ∧ (c9Save c9S4).1.seq = 3
    ∧ ¬ ((3 : ℕ) < (c9Save c9S4).1.seq)
    ∧ (c9Save c9S4).1 ∈ c9S4 := by decide

/-- C9 (amended): the sequence number encoded in a new filename is the
current count of stored files for the subject plus one. It is strictly
greater than every stored sequence number for that subject — and the save
cannot overwrite — only under the no-gap condition that every stored
sequence number for the subject is at most that count (which holds when
saves have not been interleaved with deletes); with delete-created gaps
the new number can collide with a stored one (see the counterexample). -/
theorem C9_amended_sequence {Img : Type} (env : CvEnv Img) (fid : ℤ) (user : Option UserRow)
    (pil : Img) (store : List TrainFile)
    (hnogap : ∀ f ∈ store.filter (fun g => decide (g.subject = fid)),
        f.seq ≤ (store.filter (fun g => decide (g.subject = fid))).length) :
    (save_training_image_for_face env fid user pil store).2.1.seq
        = (store.filter (fun g => decide (g.subject = fid))).length + 1
    ∧ (∀ f ∈ store.filter (fun g => decide (g.subject = fid)),
        f.seq < (save_training_image_for_face env fid user pil store).2.1.seq)
    ∧ (save_training_image_for_face env fid user pil store).2.1 ∉ store := by
  obtain ⟨hf1, _⟩ := save_store_eq env fid user pil store
  have hseq : (save_training_image_for_face env fid user pil store).2.1.seq
      = (store.filter (fun g => decide (g.subject = fid))).length + 1 := by rw [hf1]
  refine ⟨hseq, ?_, ?_⟩
  · intro f hf
    rw [hseq]
    exact Nat.lt_succ_of_le (hnogap f hf)
  · intro hmem
    have hsub : (save_training_image_for_face env fid user pil store).2.1.subject = fid := by
      rw [hf1]
    have hfil : (save_training_image_for_face env fid user pil store).2.1
        ∈ store.filter (fun g => decide (g.subject = fid)) :=
      List.mem_filter.mpr ⟨hmem, by simp [hsub]⟩
    have hle := hnogap _ hfil
    rw [hseq] at hle
    omega

/-- C9 amended, witnessed on a gap-free one-file listing for subject 1. -/
theorem C9_amended_witness :
    (∀ f ∈ ([(⟨1, none, 1⟩ : TrainFile)] : List TrainFile).filter
        (fun g => decide (g.subject = 1)),
      f.seq ≤ (([(⟨1, none, 1⟩ : TrainFile)] : List TrainFile).filter
        (fun g => decide (g.subject = 1))).length)
    ∧ (save_training_image_for_face envUnit 1 none () [(⟨1, none, 1⟩ : TrainFile)]).2.1.seq = 2
    ∧ (save_training_image_for_face envUnit 1 none ()
        [(⟨1, none, 1⟩ : TrainFile)]).2.1 ∉ [(⟨1, none, 1⟩ : TrainFile)] :=
  ⟨by decide,
    (C9_amended_sequence envUnit 1 none () [⟨1, none, 1⟩] (by decide)).1,
    (C9_amended_sequence envUnit 1 none () [⟨1, none, 1⟩] (by decide)).2.2⟩

/-! ### Evaluator helper lemmas -/

/-- A left fold by `min` is below its starting value. -/
theorem foldl_min_le_init (t : List ℚ) : ∀ a : ℚ, t.foldl min a ≤ a := by
  induction t with
  | nil => intro a; exact le_refl a
  | cons b t ih => intro a; exact le_trans (ih (min a b)) (min_le_left a b)

/-- A left fold by `min` is below every list element. -/
theorem foldl_min_le_mem (t : List ℚ) : ∀ a x : ℚ, x ∈ t → t.foldl min a ≤ x := by
  induction t with
  | nil => intro a x hx; cases hx
  | cons b t ih =>
      intro a x hx
      rcases List.mem_cons.mp hx with h | h
      · subst h; exact le_trans (foldl_min_le_init t (min a x)) (min_le_right a x)
      · exact ih (min a b) x h

/-- Python's `min` is below every element of the list. -/
theorem listMin_le (l : List ℚ) (x : ℚ) (hx : x ∈ l) : listMin l ≤ x := by
  cases l with
  | nil => cases hx
  | cons a t =>
      show t.foldl min a ≤ x
      rcases List.mem_cons.mp hx with h | h
      · subst h; exact foldl_min_le_init t x
      · exact foldl_min_le_mem t a x h

/-- A left fold by `max` is above its starting value. -/
theorem init_le_foldl_max (t : List ℚ) : ∀ a : ℚ, a ≤ t.foldl max a := by
  induction t with
  | nil => intro a; exact le_refl a
  | cons b t ih => intro a; exact le_trans (le_max_left a b) (ih (max a b))

/-- A left fold by `max` is above every list element. -/
theorem mem_le_foldl_max (t : List ℚ) : ∀ a x : ℚ, x ∈ t → x ≤ t.foldl max a := by
  induction t with
  | nil => intro a x hx; cases hx
  | cons b t ih =>
      intro a x hx
      rcases List.mem_cons.mp hx with h | h
      · subst h; exact le_trans (le_max_right a x) (init_le_foldl_max t (max a x))
      · exact ih (max a b) x h

/-- Python's `max` is above every element of the list. -/
theorem le_listMax (l : List ℚ) (x : ℚ) (hx : x ∈ l) : x ≤ listMax l := by
  cases l with
  | nil => cases hx
  | cons a t =>
      show x ≤ t.foldl max a
      rcases List.mem_cons.mp hx with h | h
      · subst h; exact init_le_foldl_max t x
      · exact mem_le_foldl_max t a x h

/-- A positional `getD` within bounds returns a list member. -/
theorem getD_mem_of_lt (l : List ℚ) (i : ℕ) (h : i < l.length) : l.getD i 0 ∈ l := by
  have hg : l.getD i 0 = l.get ⟨i, h⟩ := by
    simp [List.getD_eq_getElem?_getD, List.getElem?_eq_getElem h]
  rw [hg]
  exact l.get_mem _ _

/-- `statistics.median` of a non-empty list lies between its `min` and
`max`. -/
theorem median_mem_bounds (l : List ℚ) (hl : l ≠ []) :
    listMin l ≤ median l ∧ median l ≤ listMax l := by
  have hperm := List.mergeSort_perm l (fun a b => decide (a ≤ b))
  have hlen : (l.mergeSort (fun a b => decide (a ≤ b))).length = l.length :=
    hperm.length_eq
  have hpos : 0 < l.length := List.length_pos.mpr hl
  have hmem : ∀ i, i < l.length → (l.mergeSort (fun a b => decide (a ≤ b))).getD i 0 ∈ l := by
    intro i hi
    have hi2 : i < (l.mergeSort (fun a b => decide (a ≤ b))).length := by
      rw [hlen]; exact hi
    exact hperm.mem_iff.mp (getD_mem_of_lt _ i hi2)
  unfold median
  rw [if_neg (by omega)]
  by_cases hodd : l.length % 2 = 1
  · rw [if_pos hodd]
    have h1 : l.length / 2 < l.length := Nat.div_lt_self hpos (by norm_num)
    exact ⟨listMin_le _ _ (hmem _ h1), le_listMax _ _ (hmem _ h1)⟩
  · rw [if_neg hodd]
    have h2 : l.length / 2 < l.length := Nat.div_lt_self hpos (by norm_num)
    have h1 : l.length / 2 - 1 < l.length := lt_of_le_of_lt (Nat.sub_le _ _) h2
    have hma := listMin_le _ _ (hmem _ h1)
    have hmb := listMin_le _ _ (hmem _ h2)
    have hxa := le_listMax _ _ (hmem _ h1)
    have hxb := le_listMax _ _ (hmem _ h2)
    constructor
    · linarith
    · linarith

/-- A `filterMap` keeps as many entries as satisfy `isSome` after the
map. -/
theorem length_filterMap_eq_countP {α β : Type} (f : α → Option β) (l : List α) :
    (l.filterMap f).length = l.countP (fun a => (f a).isSome) := by
  induction l with
  | nil => rfl
  | cons a t ih => cases h : f a <;> simp [List.filterMap_cons, h, List.countP_cons, ih]

/-- Entries mapped to `none` can be dropped before a `filterMap`. -/
theorem filterMap_skip_none {α β : Type} (f : Option α → Option β) (hf : f none = none)
    (l : List (Option α)) :
    l.filterMap f = (l.filter (fun o => o.isSome)).filterMap f := by
  induction l with
  | nil => rfl
  | cons a t ih => cases a <;> simp [List.filterMap_cons, List.filter_cons, hf, ih]

/-! ### Claim C7: evaluator statistics -/

/-- C7: over a non-empty set of successfully processed gallery files, the
reported statistics satisfy `min ≤ median ≤ max`; the count equals the
number of files that were successfully decoded, preprocessed and scored;
and decode failures are skipped rather than aborting (evaluating with the
unreadable files removed yields the same confidences). -/
theorem C7_evaluator_stats {Img : Type} (env : CvEnv Img) (predictConf : Img → Option ℚ)
    (decoded : List (Option Img))
    (hne : admin_evaluate_confs env predictConf decoded ≠ []) :
    (listMin (admin_evaluate_confs env predictConf decoded)
        ≤ median (admin_evaluate_confs env predictConf decoded)
      ∧ median (admin_evaluate_confs env predictConf decoded)
        ≤ listMax (admin_evaluate_confs env predictConf decoded))
    ∧ (admin_evaluate_confs env predictConf decoded).length
        = decoded.countP (fun o => (evalFileScore env predictConf o).isSome)
    ∧ admin_evaluate_confs env predictConf decoded
        = admin_evaluate_confs env predictConf (decoded.filter (fun o => o.isSome)) := by
  refine ⟨median_mem_bounds _ hne, ?_, ?_⟩
  · exact length_filterMap_eq_countP (evalFileScore env predictConf) decoded
  · exact filterMap_skip_none (evalFileScore env predictConf) rfl decoded

/-- C7, witnessed: a gallery with scores 1 and 3 plus one unreadable file
has count 2 and statistics 1 ≤ 2 ≤ 3. -/
theorem C7_evaluator_witness :
    admin_evaluate_confs envRat (fun g => some g) [some 1, none, some 3] ≠ []
    ∧ (listMin (admin_evaluate_confs envRat (fun g => some g) [some 1, none, some 3])
        ≤ median (admin_evaluate_confs envRat (fun g => some g) [some 1, none, some 3])
      ∧ median (admin_evaluate_confs envRat (fun g => some g) [some 1, none, some 3])
        ≤ listMax (admin_evaluate_confs envRat (fun g => some g) [some 1, none, some 3]))
    ∧ (admin_evaluate_confs envRat (fun g => some g) [some 1, none, some 3]).length
        = ([some (1 : ℚ), none, some 3] : List (Option ℚ)).countP
            (fun o => (evalFileScore envRat (fun g => some g) o).isSome) :=
  ⟨by decide,
    (C7_evaluator_stats envRat (fun g => some g) [some 1, none, some 3] (by decide)).1,
    (C7_evaluator_stats envRat (fun g => some g) [some 1, none, some 3] (by decide)).2.1⟩

/-! ### Claim C2: attendance is recorded iff the full gate passes -/

/-- C2: for a logged-in caller, the attendance write happens exactly when
the request image decoded, a face was normalized, a predictor loaded, the
backend gate accepted, and the predicted label equals the caller's
enrolled face id; and a logged-out caller never records attendance. -/
theorem C2_attendance_gate {Img : Type} (env : CvEnv Img) (fs : FsState Img)
    (getFaceName : ℤ → Option String) (user : SessionUser) (src : ImgSrc Img) :
    ((mark_attendance env fs getFaceName (some user) src).recorded = true ↔
      (∃ pil face p,
        src.decodedImage = some pil
        ∧ preprocess_face_np env (some (env.toGray pil)) = some face
        ∧ (ensure_predictor fs).1 = some p
        ∧ (p.predict face).2.2 = true
        ∧ user.face_id = some (p.predict face).1))
    ∧ (mark_attendance env fs getFaceName none src).recorded = false := by
  refine ⟨?_, rfl⟩
  unfold mark_attendance
  cases hdec : src.decodedImage with
  | none => simp [hdec]
  | some pil =>
      simp only [hdec]
      cases hpre : preprocess_face_np env (some (env.toGray pil)) with
      | none => simp [hdec, hpre]
      | some face =>
          simp only [hpre]
          cases hep : (ensure_predictor fs).1 with
          | none => simp [hdec, hpre, hep]
          | some p =>
              simp only [hep]
              by_cases hconf : (p.predict face).2.2 = false
              · rw [if_pos hconf]
                simp [hdec, hpre, hep, hconf]
              · rw [if_neg hconf]
                simp only [Bool.not_eq_false] at hconf
                cases huid : user.face_id with
                | none => simp [hdec, hpre, hep, hconf, huid]
                | some ufid =>
                    simp only [huid]
                    by_cases hlab : (p.predict face).1 ≠ ufid
                    · rw [if_pos hlab]
                      constructor
                      · intro h; cases h
                      · rintro ⟨pil2, face2, p2, h1, h2, h3, h4, h5⟩
                        obtain rfl := Option.some_injective _ h1
                        rw [hpre] at h2
                        obtain rfl := Option.some_injective _ h2
                        obtain rfl := Option.some_injective _ h3
                        exact absurd (Option.some_injective _ h5).symm hlab
                    · rw [if_neg hlab]
                      simp only [not_not] at hlab
                      constructor
                      · intro _
                        exact ⟨pil, face, p, rfl, hpre, rfl, hconf, by rw [hlab]⟩
                      · intro _; rfl

end FaceAttendance
